import Mathlib

/-!
Verification of the AeroWeather collection/simulation/persistence pipeline.

Shallow embedding of `AeroWeatherInsights/utils/weather_service.py`,
`AeroWeatherInsights/utils/data_collection.py` and
`AeroWeatherInsights/utils/analysis.py`.  Real-valued quantities that the
Python code manipulates as floats are modelled as exact rationals (`ℚ`);
random draws (`np.random.*`) are modelled as explicitly passed values;
external I/O outcomes (HTTP fetches, pickle loads) are modelled as
explicitly passed sum-type values.
-/

namespace AeroWeather

/-! ## Weather Gateway (`weather_service.py`) -/

/-- A weather snapshot, as assembled by `WeatherService.get_weather`
(`weather_service.py` lines 144-156).  The `timestamp` field of the Python
dict is bookkeeping metadata (a wall-clock string) and is modelled by the
separate cache-entry timestamp below, as the code only ever reads the
cache entry's own timestamp. -/
structure Weather where
  temperature : ℚ
  feels_like : ℚ
  humidity : ℚ
  pressure : ℚ
  wind_speed : ℚ
  wind_direction : ℚ
  visibility : ℚ
  cloud_coverage : ℚ
  weather_condition : String
  precipitation : ℚ
deriving DecidableEq

/-- `WeatherService.default_weather` (`weather_service.py` lines 25-37):
the fixed fallback snapshot returned when the API fails. -/
def default_weather : Weather :=
  { temperature := 68
    feels_like := 65
    humidity := 50
    pressure := 4053 / 4       -- 1013.25
    wind_speed := 0
    wind_direction := 0
    visibility := 10
    cloud_coverage := 0
    weather_condition := "Clear"
    precipitation := 0 }

/-- One entry of `WeatherService.cache`: the dict
`data / timestamp` stored at line 166-169.  Timestamps are minutes on an
abstract clock (the code compares `datetime.now() - timestamp` against a
30-minute `cache_duration`). -/
structure CacheEntry where
  data : Weather
  timestamp : ℚ
deriving DecidableEq

/-- `WeatherService.cache`: a string-keyed dict, modelled as an
association list. -/
abbrev Cache := List (String × CacheEntry)

/-- Dict lookup `self.cache[cache_key]` guarded by
`cache_key in self.cache`. -/
def cacheLookup (c : Cache) (k : String) : Option CacheEntry :=
  (c.find? (fun p => p.1 == k)).map (fun p => p.2)

/-- Dict assignment `self.cache[k] = entry`: replace an existing binding,
otherwise add one. -/
def cacheInsert (c : Cache) (k : String) (e : CacheEntry) : Cache :=
  if c.any (fun p => p.1 == k) then
    c.map (fun p => if p.1 == k then (k, e) else p)
  else
    c ++ [(k, e)]

/-- Outcome of the three-request NOAA fetch inside `get_weather`:
either a successfully assembled snapshot, or one of the failure modes
caught by the code — `requests.exceptions.RequestException` (line 174),
any other exception while requesting/parsing (line 177), or an exception
while processing the observation properties (line 160). -/
inductive FetchOutcome where
  | success (w : Weather)
  | requestError
  | otherError
  | processError
deriving DecidableEq

/-- Failure modes of a fetch (everything but `success`). -/
def FetchOutcome.isFailure : FetchOutcome → Bool
  | .success _ => false
  | .requestError => true
  | .otherError => true
  | .processError => true

/-- The fetch-and-cache path of `get_weather` (lines 102-179), taken when
the cache check does not return.  On success the snapshot is cached —
NOTE: the code writes the cache under `self.cache[airport_code]`
(line 166), not under the `cache_key` it uses for lookup.  On
`processError` the function returns the default before reaching the cache
update (line 163); on the other failures it returns the default from the
`except` clauses (lines 174-179).  The returned `Bool` records that
network requests were performed on this path. -/
def fetchAndCache (cache : Cache) (now : ℚ) (airport_code : String)
    (fetch : FetchOutcome) : Weather × Cache × Bool :=
  match fetch with
  | .success w => (w, cacheInsert cache airport_code { data := w, timestamp := now }, true)
  | .processError => (default_weather, cache, true)
  | .requestError => (default_weather, cache, true)
  | .otherError => (default_weather, cache, true)

/-- `WeatherService.get_weather` (lines 87-179).  `dateIso` is
`target_date.date().isoformat()`; the cache lookup key is
`airport_code + "_" + dateIso` (line 95).  If a cache entry exists and is
younger than 30 minutes it is returned unchanged with no network request;
otherwise the fetch path runs.  The result triple is
(returned snapshot, cache after the call, whether network requests were
made). -/
def get_weather (cache : Cache) (now : ℚ) (airport_code dateIso : String)
    (fetch : FetchOutcome) : Weather × Cache × Bool :=
  let cache_key := airport_code ++ "_" ++ dateIso
  match cacheLookup cache cache_key with
  | some entry =>
      if now - entry.timestamp < 30 then (entry.data, cache, false)
      else fetchAndCache cache now airport_code fetch
  | none => fetchAndCache cache now airport_code fetch

/-! ## Flight Record Simulator (`data_collection.py`, `_generate_flight_data`) -/

/-- The per-record delay simulation of `_generate_flight_data`
(`data_collection.py` lines 214-237), as a function of the weather inputs
and the random draws.  `t` is the record's temperature, `p` its
precipitation; `af` is the `np.random.normal` airline-factor draw, `pf`
the airport-factor draw; `a1` is the `Normal(10,3)` alpha draw used when
precipitation ≥ 0.3, `a2` the `Normal(25,5)` draw that replaces it when
additionally temperature ≤ 32.  Python's `if not precipitation` zeroes a
falsy (i.e. 0.0) value.  Returns (delay_minutes, weather_delay). -/
def simulateDelay (t p af pf a1 a2 : ℚ) : ℚ × Bool :=
  let p' := if p = 0 then (0 : ℚ) else p
  let alpha : ℚ := if p' ≥ 3 / 10 then (if t ≤ 32 then a2 else a1) else 0
  let base_delay := (1 / 2) * af + (1 / 2) * pf + p' * 20 + (100 - t) * (1 / 100) + alpha
  let delay := max 0 base_delay
  (delay, decide (delay > 30))

/-! ## Persistence Layer (`data_collection.py`) -/

/-- One row of the `flight_data` table, i.e. one record of the DataFrames
built by `_generate_flight_data` (the server-assigned `id` and
`collection_timestamp` columns are filled by SQLite on insert and are not
part of the stored batch).  Dates are abstract day numbers.  The five
columns that `_clean_data` null-fills are `Option`-valued; the generator
always fills the remaining columns. -/
structure Row where
  date : Int
  airline : String
  origin : String
  destination : String
  delay_minutes : Option ℚ
  temperature : Option ℚ
  precipitation : Option ℚ
  weather_condition : Option String
  weather_delay : Option Bool
  wind_speed : ℚ
  wind_direction : ℚ
  visibility : ℚ
  cloud_coverage : Int
  humidity : Int
  pressure : ℚ
deriving DecidableEq

/-- `df.drop_duplicates()`: remove exact-duplicate rows, keeping the
first occurrence of each. -/
def dropDuplicates {α : Type} [DecidableEq α] (l : List α) : List α :=
  l.foldl (fun acc x => if x ∈ acc then acc else acc ++ [x]) []

/-- `DataCollector._clean_data` (`data_collection.py` lines 244-262):
drop exact duplicates, then fill missing temperature with the
(deduplicated) batch's mean temperature — pandas `mean()` skips missing
values, and filling with a missing mean (empty column) leaves the value
missing — missing precipitation/delay with 0, missing condition with
"Clear", missing weather_delay with False.  The subsequent
`pd.to_datetime(...).dt.date` and `astype(bool)` casts are identities in
this model. -/
def clean_data (batch : List Row) : List Row :=
  let d := dropDuplicates batch
  let temps := d.filterMap (fun r => r.temperature)
  let meanTemp : Option ℚ :=
    if temps.length = 0 then none else some (temps.sum / (temps.length : ℚ))
  d.map (fun r =>
    { r with
      temperature := (r.temperature).orElse (fun _ => meanTemp)
      precipitation := some ((r.precipitation).getD 0)
      weather_condition := some ((r.weather_condition).getD "Clear")
      delay_minutes := some ((r.delay_minutes).getD 0)
      weather_delay := some ((r.weather_delay).getD false) })

/-- `DataCollector._store_data` (lines 264-274):
`df.to_sql('flight_data', conn, if_exists='append', index=False)` —
a plain append of the batch to the existing table. -/
def store_data (table batch : List Row) : List Row :=
  table ++ batch

/-- `DataCollector.get_stored_data` (lines 276-287): the WHERE clause
`date BETWEEN start AND end` (inclusive) is added only when **both**
bounds are truthy (`if start_date and end_date:`); otherwise the whole
table is selected. -/
def get_stored_data (table : List Row) (start_date end_date : Option Int) : List Row :=
  match start_date, end_date with
  | some a, some b => table.filter (fun r => decide (a ≤ r.date) && decide (r.date ≤ b))
  | _, _ => table

/-! ## Collection Orchestrator (`data_collection.py`) -/

/-- `DataCollector.collect_and_store_data` (lines 104-163) for an
explicit date range, with the per-day weather-fetch-plus-generation step
abstracted as `gen : day ↦ Option (rows)` (`none` models the per-day
exception that is logged and skipped, lines 141-143).  The loop walks
`start_date, start_date+1, …, end_date` inclusive; if no day appended a
batch the function returns without storing (lines 147-149); otherwise the
daily batches are concatenated, cleaned and appended to the table. -/
def collect_and_store_data (gen : Int → Option (List Row)) (db : List Row)
    (start_date end_date : Int) : List Row :=
  let days := (List.range (end_date + 1 - start_date).toNat).map (fun i => start_date + i)
  let all_data := days.filterMap gen
  if all_data.isEmpty then db
  else store_data db (clean_data all_data.flatten)

/-- Day number of 2024-12-13 (days since 1970-01-01), the fixed
`end_date` of `initialize_historical_data` (line 29). -/
def historyEndDay : Int := 20070

/-- `DataCollector.initialize_historical_data` (lines 24-57).  The range
is `[end_date - 369, end_date]`.  In the source, **both** the database
reinitialization and the `collect_and_store_data` call sit inside the
`if force:` block (lines 34-44); with `force=False` neither runs.  The
verification step (lines 46-49) then re-queries the range and raises
`"No data was stored after collection"` when it comes back empty; the
outer `except` re-raises (line 57), so the error propagates. -/
def init_historical_data (gen : Int → Option (List Row)) (db : List Row)
    (force : Bool) : Except String (List Row) :=
  let end_date := historyEndDay
  let start_date := end_date - 369
  let db1 := if force then collect_and_store_data gen [] start_date end_date else db
  let stored := get_stored_data db1 (some start_date) (some end_date)
  if stored.isEmpty then Except.error "No data was stored after collection"
  else Except.ok stored

/-! ## Statistical & Predictive Model (`analysis.py`) -/

/-- Ordered insertion, used to sort samples before taking quantiles. -/
def insertSorted (x : ℚ) : List ℚ → List ℚ
  | [] => [x]
  | y :: ys => if x ≤ y then x :: y :: ys else y :: insertSorted x ys

/-- Insertion sort of a list of rationals (ascending). -/
def sortList (l : List ℚ) : List ℚ :=
  l.foldr insertSorted []

/-- The linear-interpolation quantile used by `pandas.Series.quantile`
and by `pd.qcut`'s bin-edge computation: for sorted samples
`x₀ ≤ … ≤ xₙ₋₁` and fraction `q`, the value at fractional position
`q·(n-1)`, interpolated between the two neighbouring samples. -/
def quantile (l : List ℚ) (q : ℚ) : ℚ :=
  let s := sortList l
  let n := s.length
  if n = 0 then 0
  else
    let pos : ℚ := q * ((n : ℚ) - 1)
    let i : ℕ := (⌊pos⌋).toNat
    let frac : ℚ := pos - (⌊pos⌋ : ℚ)
    let lo := s.getD i 0
    let hi := s.getD (min (i + 1) (n - 1)) 0
    lo + frac * (hi - lo)

/-- The training-time "severe weather" flag of
`train_model.engineer_features` (`analysis.py` lines 90-91), for a row
with temperature `t` and precipitation `p` of a training frame whose
temperature column is `temps` and precipitation column is `precips`:
`(temperature < temperature.quantile(0.2)) & (precipitation > precipitation.quantile(0.8))`. -/
def severeWeatherTrain (temps precips : List ℚ) (t p : ℚ) : Bool :=
  decide (t < quantile temps (1 / 5)) && decide (p > quantile precips (4 / 5))

/-- The inference-time "severe weather" flag of `predict_with_interval`
(`analysis.py` lines 179-180):
`(temp > df.temperature.quantile(0.8)) & (precip > df.precipitation.quantile(0.8))`. -/
def severeWeatherPredict (temps precips : List ℚ) (t p : ℚ) : Bool :=
  decide (t > quantile temps (4 / 5)) && decide (p > quantile precips (4 / 5))

/-- The interval arithmetic of `predict_with_interval`
(`analysis.py` lines 187-198): given the model's cross-validated RMSE and
the regressor's point estimate (the regressor itself is an external fitted
object; its output is taken as an input here), return
(prediction, lower_bound, upper_bound) with
`margin = cv_rmse * 1.96`, `lower = max(0, prediction - margin)`,
`upper = prediction + margin`. -/
def predictInterval (cv_rmse prediction : ℚ) : ℚ × ℚ × ℚ :=
  let margin := cv_rmse * (49 / 25)
  (prediction, max 0 (prediction - margin), prediction + margin)

/-- The quartile bin edges `pd.qcut(data, q=4)` computes: the quantiles
of the data at fractions 0, 1/4, 1/2, 3/4, 1. -/
def qcutEdges (l : List ℚ) : List ℚ :=
  [quantile l 0, quantile l (1 / 4), quantile l (1 / 2),
   quantile l (3 / 4), quantile l 1]

/-- Bucket label a delay value receives from the four quartile intervals
(first interval closed on the left, `include_lowest` behaviour). -/
def severityLabel (l : List ℚ) (v : ℚ) : String :=
  if v ≤ quantile l (1 / 4) then "Low"
  else if v ≤ quantile l (1 / 2) then "Moderate"
  else if v ≤ quantile l (3 / 4) then "High"
  else "Severe"

/-- `pd.qcut(severity_score, q=4, labels=['Low','Moderate','High','Severe'],
duplicates='drop')` (`analysis.py` lines 36-41).  With `duplicates='drop'`
pandas drops repeated bin edges; if fewer than the requested 4 bins
remain while a 4-element `labels` list was passed, it raises
`ValueError: Bin labels must be one fewer than the number of bin edges`.
Otherwise each value is labelled by its quartile interval. -/
def qcut4 (l : List ℚ) : Except String (List String) :=
  if (qcutEdges l).dedup.length ≠ 5 then
    Except.error "Bin labels must be one fewer than the number of bin edges"
  else
    Except.ok (l.map (severityLabel l))

/-- The severity-bucketing step of `perform_weather_analysis`
(`analysis.py` lines 33-45): the `qcut` call is wrapped in
`try/except`; on any exception every row's `weather_severity` is set to
the single default label `"Low"`. -/
def weatherSeverity (delays : List ℚ) : List String :=
  match qcut4 delays with
  | Except.ok labels => labels
  | Except.error _ => delays.map (fun _ => "Low")

/-- The metric bundle of the `results` dict built by `train_model`
(`analysis.py` lines 137-149), restricted to the exactly representable
metric fields consumed downstream (the fitted regressor and scaler are
external `sklearn` objects). -/
structure TrainResults where
  rmse : ℚ
  mae : ℚ
  r_squared : ℚ
  cv_rmse : ℚ
deriving DecidableEq

/-- `get_model` (`analysis.py` lines 157-164): tries to unpickle
`results.pkl`; the argument models the outcome of that load (`none` =
file absent or unreadable).  On failure the `except` clause only logs,
after which `return results` reads the never-assigned local `results`
and raises `UnboundLocalError` — so a failed load raises to the caller
and never produces a model. -/
def get_model (file : Option TrainResults) : Except String TrainResults :=
  match file with
  | some results => Except.ok results
  | none => Except.error "UnboundLocalError"

/-- A fully populated flight record, used as a concrete persisted row. -/
def sampleRow : Row :=
  { date := 0
    airline := "Delta"
    origin := "SEA"
    destination := "LAX"
    delay_minutes := some 10
    temperature := some 68
    precipitation := some 0
    weather_condition := some "Clear"
    weather_delay := some false
    wind_speed := 0
    wind_direction := 0
    visibility := 10
    cloud_coverage := 0
    humidity := 50
    pressure := 1013 }

/-! ## Helper lemmas -/

/-- The fold underlying `dropDuplicates` preserves `Nodup` of the
accumulator. -/
theorem nodup_dropDup_foldl {α : Type} [DecidableEq α] :
    ∀ (l acc : List α), acc.Nodup →
      (l.foldl (fun acc x => if x ∈ acc then acc else acc ++ [x]) acc).Nodup := by
  intro l
  induction l with
  | nil => intro acc h; exact h
  | cons x xs ih =>
    intro acc h
    simp only [List.foldl_cons]
    by_cases hx : x ∈ acc
    · rw [if_pos hx]; exact ih acc h
    · rw [if_neg hx]
      apply ih
      refine List.nodup_append.mpr ⟨h, List.nodup_singleton x, ?_⟩
      intro a ha hmem
      rw [List.mem_singleton] at hmem
      subst hmem
      exact hx ha

/-- `dropDuplicates` produces a duplicate-free list. -/
theorem dropDuplicates_nodup {α : Type} [DecidableEq α] (l : List α) :
    (dropDuplicates l).Nodup :=
  nodup_dropDup_foldl l [] List.nodup_nil

/-! ## Claim theorems -/

/-- C1: in `initialize_historical_data` the `collect_and_store_data` call
sits inside the `if force:` block, so with `force=false` the run performs
no collection at all: the outcome is independent of the per-day
collect-and-store behaviour, and on an empty database the call fails with
"No data was stored after collection" instead of iterating the range and
persisting records. -/
theorem init_historical_data_no_collection_without_force :
    (∀ (gen gen' : Int → Option (List Row)) (db : List Row),
      init_historical_data gen db false = init_historical_data gen' db false) ∧
    (∀ gen : Int → Option (List Row),
      init_historical_data gen [] false =
        Except.error "No data was stored after collection") := by
  constructor
  · intro gen gen' db; rfl
  · intro gen; rfl

/-- C2: `get_weather` writes the cache under the bare airport code but
looks it up under `airport_code + "_" + date`, so after a first
successful fetch for ("SEA", 2024-12-11) the entry sits under key "SEA",
the lookup key "SEA_2024-12-11" is absent, and a second call for the same
airport and date only 10 minutes later takes the fetch path again
(performs network requests) instead of returning the cached snapshot. -/
theorem get_weather_cache_write_key_mismatch :
    ∀ (w : Weather) (f : FetchOutcome),
      cacheLookup (get_weather [] 0 "SEA" "2024-12-11" (FetchOutcome.success w)).2.1
        "SEA" = some { data := w, timestamp := 0 } ∧
      cacheLookup (get_weather [] 0 "SEA" "2024-12-11" (FetchOutcome.success w)).2.1
        ("SEA" ++ "_" ++ "2024-12-11") = none ∧
      (get_weather (get_weather [] 0 "SEA" "2024-12-11" (FetchOutcome.success w)).2.1
        10 "SEA" "2024-12-11" f).2.2 = true := by
  intro w f
  refine ⟨rfl, rfl, ?_⟩
  cases f <;> rfl

/-- C3 counterexample: two `store` calls whose (cleaned) batches share
the exact-duplicate row `sampleRow` leave two identical copies of that
row in the table, not at most one. -/
theorem store_twice_keeps_cross_call_duplicates :
    (store_data (store_data [] (clean_data [sampleRow]))
      (clean_data [sampleRow])).count sampleRow = 2 := by
  rfl

/-- C3 amended: each `store` call appends its cleaned batch to the table
unconditionally; exact-duplicate rows are collapsed to one only *within*
a single batch (by `_clean_data`'s `drop_duplicates`, before null
filling), never across separate store calls. -/
theorem store_dedups_only_within_batch :
    (∀ table batch : List Row,
      store_data table (clean_data batch) = table ++ clean_data batch) ∧
    (∀ (batch : List Row) (r : Row), (dropDuplicates batch).count r ≤ 1) := by
  constructor
  · intro table batch; rfl
  · intro batch r
    exact List.nodup_iff_count_le_one.mp (dropDuplicates_nodup batch) r

/-- C4: whenever the fetch path of `get_weather` runs (no fresh cache
entry exists for the lookup key) and the external service fails in any of
the caught ways, the call returns exactly the fixed default snapshot —
and, being a total function, it never raises to its caller. -/
theorem get_weather_failure_returns_default :
    ∀ (cache : Cache) (now : ℚ) (airport_code dateIso : String) (f : FetchOutcome),
      f.isFailure = true →
      (∀ e, cacheLookup cache (airport_code ++ "_" ++ dateIso) = some e →
        30 ≤ now - e.timestamp) →
      (get_weather cache now airport_code dateIso f).1 = default_weather := by
  intro cache now a d f hf hc
  have hfetch : (fetchAndCache cache now a f).1 = default_weather := by
    cases f with
    | success w => simp [FetchOutcome.isFailure] at hf
    | requestError => rfl
    | otherError => rfl
    | processError => rfl
  simp only [get_weather]
  split
  · next e heq =>
    split
    · next hlt => exact absurd hlt (not_lt.mpr (hc e heq))
    · exact hfetch
  · exact hfetch

/-- C4 witness: a request failure on an empty cache yields the default
snapshot. -/
theorem get_weather_failure_returns_default_witness :
    FetchOutcome.requestError.isFailure = true ∧
    (get_weather [] 0 "SEA" "2024-12-11" FetchOutcome.requestError).1 = default_weather :=
  ⟨rfl,
    get_weather_failure_returns_default [] 0 "SEA" "2024-12-11" FetchOutcome.requestError
      rfl (fun _ h => nomatch h)⟩

/-- C5: every simulated flight record has a non-negative delay, and its
`weather_delay` flag is true exactly when `delay_minutes > 30`, for all
weather inputs and all random draws. -/
theorem flight_record_delay_invariants :
    ∀ t p af pf a1 a2 : ℚ,
      0 ≤ (simulateDelay t p af pf a1 a2).1 ∧
      ((simulateDelay t p af pf a1 a2).2 = true ↔ (simulateDelay t p af pf a1 a2).1 > 30) := by
  intro t p af pf a1 a2
  simp only [simulateDelay]
  exact ⟨le_max_left 0 _, decide_eq_true_iff⟩

/-- C6: the "severe weather" flag is computed with two different
definitions — at training time, temperature below the training 20th
percentile AND precipitation above the 80th; at inference time,
temperature above the 80th percentile AND precipitation above the 80th —
and the two disagree, e.g. on temperature 10, precipitation 0.9 over
temperature column [0,100] and precipitation column [0,1]. -/
theorem severe_weather_definitions_asymmetric :
    (∀ (temps precips : List ℚ) (t p : ℚ),
      severeWeatherTrain temps precips t p = true ↔
        t < quantile temps (1 / 5) ∧ p > quantile precips (4 / 5)) ∧
    (∀ (temps precips : List ℚ) (t p : ℚ),
      severeWeatherPredict temps precips t p = true ↔
        t > quantile temps (4 / 5) ∧ p > quantile precips (4 / 5)) ∧
    severeWeatherTrain [0, 100] [0, 1] 10 (9 / 10) = true ∧
    severeWeatherPredict [0, 100] [0, 1] 10 (9 / 10) = false := by
  refine ⟨?_, ?_, ?_, ?_⟩
  · intro temps precips t p; simp [severeWeatherTrain]
  · intro temps precips t p; simp [severeWeatherPredict]
  · norm_num [severeWeatherTrain, quantile, sortList, insertSorted]
  · norm_num [severeWeatherPredict, quantile, sortList, insertSorted]

/-- C7: the returned interval is
(point, max(0, point - cv_rmse·1.96), point + cv_rmse·1.96); in
particular cv_rmse = 5 and point = 20 give bounds 10.2 (= 51/5) and
29.8 (= 149/5). -/
theorem predict_interval_bounds :
    (∀ cv_rmse prediction : ℚ,
      predictInterval cv_rmse prediction =
        (prediction, max 0 (prediction - cv_rmse * (49 / 25)),
          prediction + cv_rmse * (49 / 25))) ∧
    predictInterval 5 20 = (20, 51 / 5, 149 / 5) := by
  constructor
  · intro c p; rfl
  · norm_num [predictInterval, Prod.ext_iff]

/-- C8: when the delay data yields fewer than 4 distinct quartile bin
edges, the severity step does not propagate the `qcut` error — every row
receives the bucket "Low". -/
theorem severity_degenerate_all_low :
    ∀ delays : List ℚ, (qcutEdges delays).dedup.length < 4 →
      weatherSeverity delays = delays.map (fun _ => "Low") := by
  intro delays h
  have herr : qcut4 delays =
      Except.error "Bin labels must be one fewer than the number of bin edges" := by
    unfold qcut4
    rw [if_pos (by omega)]
  simp [weatherSeverity, herr]

/-- C8 witness: five equal delays give a single distinct bin edge and
every row is bucketed "Low". -/
theorem severity_degenerate_all_low_witness :
    (qcutEdges [7, 7, 7, 7, 7]).dedup.length < 4 ∧
    weatherSeverity [7, 7, 7, 7, 7] = ["Low", "Low", "Low", "Low", "Low"] :=
  have hlen : (qcutEdges [7, 7, 7, 7, 7]).dedup.length = 1 := by
    norm_num [qcutEdges, quantile, sortList, insertSorted]
    rfl
  ⟨by omega,
    (severity_degenerate_all_low [7, 7, 7, 7, 7] (by omega)).trans rfl⟩

/-- C9: when the model snapshot cannot be loaded, `get_model` raises
(`UnboundLocalError` from the unassigned `results` local) and never
returns a usable model. -/
theorem get_model_missing_file_raises :
    get_model none = Except.error "UnboundLocalError" ∧
    ∀ results : TrainResults, get_model none ≠ Except.ok results :=
  ⟨rfl, fun _ h => nomatch h⟩

/-- C10: `get_stored_data` applies its date filter only when both bounds
are supplied; with a single bound (either one) the whole table is
returned, exactly as with no bounds. -/
theorem get_stored_data_single_bound_returns_all :
    ∀ (table : List Row) (s e : Int),
      get_stored_data table (some s) none = table ∧
      get_stored_data table none (some e) = table ∧
      get_stored_data table none none = table := by
  intro table s e
  exact ⟨rfl, rfl, rfl⟩

end AeroWeather
